import Mathlib

/-!
Verification of the geospatial feature engine of the Public-Works-Reporter
client (`App.tsx`, `components/GeoJSONLayer.tsx`).

The embedding models JavaScript runtime values that flow through the engine
with the inductive `JVal` (finite numbers carried as reals, `NaN`, the two
infinities, non-number scalars, and arrays).  `typeof v === number`
holds exactly for the four numeric constructors, and `isNaN` only for
`JVal.nan`.  Geometry objects, features, datasets and Supabase project rows
are translated structure-for-structure from the source; every guard
(`Array.isArray`, length checks, `typeof`/`isNaN` checks) is reproduced at
the place it occurs in the code.
-/

namespace PWR

open Real

/-- A JavaScript value as it appears inside geometry coordinate arrays and
as a latitude/longitude argument: a finite number, `NaN`, `+Infinity`,
`-Infinity`, any other non-number scalar (string, boolean, `null`, plain
object, `undefined`), or an array. -/
inductive JVal where
  | num (x : ℝ)
  | nan
  | inf
  | negInf
  | scalar
  | arr (l : List JVal)

/-- `typeof v === number && !isNaN(v)` — the coordinate-validity test used
at lines 577-578 and 666-667 of `App.tsx`. -/
def isNumberNotNaN : JVal → Bool
  | .num _ => true
  | .inf => true
  | .negInf => true
  | _ => false

/-- The geometry `type` tag.  `other` stands for any tag different from the
four recognized ones (including a missing or falsy tag). -/
inductive GType where
  | point
  | lineString
  | multiLineString
  | polygon
  | other
  deriving DecidableEq

/-- A geometry object: a `type` tag and a raw `coordinates` value. -/
structure Geometry where
  gtype : GType
  coords : JVal

/-- The attribute keys the render layer reads (lines 123-124 of
`GeoJSONLayer.tsx`); `none` models an absent or falsy value, so that the
JavaScript `||` fallback chain is an `Option.getD` chain. -/
structure Props where
  br_name : Option String
  road_name : Option String
  pname : Option String
  description : Option String
  deriving DecidableEq

/-- Attribute bag with no recognized keys set. -/
def noProps : Props := ⟨none, none, none, none⟩

/-- A GeoJSON feature.  `geometry = none` models a `null`/missing/non-object
geometry (every access the code performs on such a value takes the same
early-exit branch). -/
structure Feature where
  geometry : Option Geometry
  props : Props

/-- A dataset element of the list handed to `filterNearbyFeatures`.
`dtype` is the `type` field, `extra` stands for all further fields carried
through the object spread `{...dataset}`, and `features = none` models a
missing or non-array `features` field (a `null` dataset takes exactly the
same branch in the code, so it is represented the same way). -/
structure Dataset where
  dtype : String
  extra : List (String × String)
  features : Option (List Feature)

/-- The replacement `{ type: FeatureCollection, features: [] }` built at
line 633 of `App.tsx` for an invalid dataset. -/
def emptyFC : Dataset := ⟨"FeatureCollection", [], some []⟩

/-! ## Distance calculator (`calculateDistance`, App.tsx lines 611-621) -/

/-- `Math.atan2 y x`, on the cases reachable from real arguments. -/
noncomputable def atan2 (y x : ℝ) : ℝ :=
  if 0 < x then Real.arctan (y / x)
  else if x < 0 then
    (if 0 ≤ y then Real.arctan (y / x) + Real.pi else Real.arctan (y / x) - Real.pi)
  else
    (if 0 < y then Real.pi / 2 else if y < 0 then -(Real.pi / 2) else 0)

/-- The intermediate `a` of `calculateDistance`:
`sin(dLat/2)·sin(dLat/2) + cos(lat1·π/180)·cos(lat2·π/180)·sin(dLon/2)·sin(dLon/2)`
with `dLat = (lat2-lat1)·π/180` and `dLon = (lon2-lon1)·π/180`. -/
noncomputable def havA (lat1 lon1 lat2 lon2 : ℝ) : ℝ :=
  Real.sin ((lat2 - lat1) * Real.pi / 180 / 2) *
      Real.sin ((lat2 - lat1) * Real.pi / 180 / 2) +
    Real.cos (lat1 * Real.pi / 180) * Real.cos (lat2 * Real.pi / 180) *
      (Real.sin ((lon2 - lon1) * Real.pi / 180 / 2) *
        Real.sin ((lon2 - lon1) * Real.pi / 180 / 2))

/-- `calculateDistance(lat1, lon1, lat2, lon2)`: haversine distance in
kilometers with Earth radius `R = 6371`,
`c = 2·atan2(√a, √(1-a))`, result `R·c`. -/
noncomputable def calculateDistance (lat1 lon1 lat2 lon2 : ℝ) : ℝ :=
  6371 *
    (2 * atan2 (Real.sqrt (havA lat1 lon1 lat2 lon2))
      (Real.sqrt (1 - havA lat1 lon1 lat2 lon2)))

/-! ## Proximity filter (`filterNearbyFeatures`, App.tsx lines 624-680) -/

/-- The comparison `calculateDistance(userLat, userLon, featureLat, featureLon) <= radiusKm`
on JavaScript numbers.  When any argument is `NaN` or an infinity the
floating-point haversine evaluates to `NaN` (`Math.sin(±Infinity)` is `NaN`
and `NaN` propagates), and `NaN <= radiusKm` is `false`; only four finite
arguments yield a real comparison. -/
def jsDistLe (uLat uLon fLat fLon : JVal) (radiusKm : ℝ) : Prop :=
  match uLat, uLon, fLat, fLon with
  | .num a, .num b, .num c, .num d => calculateDistance a b c d ≤ radiusKm
  | _, _, _, _ => False

/-- Representative-point extraction of `filterNearbyFeatures`
(App.tsx lines 644-663), returning `(featureLat, featureLon)`:
`Point` → `(coords[1], coords[0])` when `coords` is an array of length ≥ 2;
`LineString` → first coordinate when it is an array of length ≥ 2;
`MultiLineString` → first coordinate of the first line under the analogous
array/length guards; every other geometry type returns `none`
(the `else { return false; }` branch). -/
def repLatLon (g : Geometry) : Option (JVal × JVal) :=
  match g.gtype, g.coords with
  | .point, .arr l =>
      if l.length < 2 then none else some (l.getD 1 .scalar, l.getD 0 .scalar)
  | .lineString, .arr l =>
      match l.head? with
      | some (.arr l0) =>
          if l0.length < 2 then none else some (l0.getD 1 .scalar, l0.getD 0 .scalar)
      | _ => none
  | .multiLineString, .arr l =>
      match l.head? with
      | some (.arr l0) =>
          match l0.head? with
          | some (.arr l00) =>
              if l00.length < 2 then none
              else some (l00.getD 1 .scalar, l00.getD 0 .scalar)
          | _ => none
      | _ => none
  | _, _ => none

open Classical in
/-- The predicate of `dataset.features.filter(...)` (App.tsx lines 638-677):
a feature with no geometry object or no extractable representative point is
rejected; the representative latitude/longitude must pass
`typeof === number && !isNaN`; finally the feature is kept iff
`calculateDistance(userLat, userLon, featureLat, featureLon) <= radiusKm`. -/
noncomputable def keepFeature (uLat uLon : JVal) (radiusKm : ℝ) (f : Feature) : Bool :=
  match f.geometry with
  | none => false
  | some g =>
      match repLatLon g with
      | none => false
      | some (fLat, fLon) =>
          if isNumberNotNaN fLat && isNumberNotNaN fLon then
            (if jsDistLe uLat uLon fLat fLon radiusKm then true else false)
          else false

/-- `filterNearbyFeatures(data, userLat, userLon, radiusKm)`
(App.tsx lines 624-680): maps each dataset; a dataset whose `features` is
missing or not an array is replaced by `{ type: FeatureCollection,
features: [] }`; otherwise the dataset is spread with its `features`
filtered by `keepFeature`. -/
noncomputable def filterNearbyFeatures (data : List Dataset) (uLat uLon : JVal)
    (radiusKm : ℝ) : List Dataset :=
  data.map fun d =>
    match d.features with
    | none => emptyFC
    | some fs => { d with features := some (fs.filter (keepFeature uLat uLon radiusKm)) }

/-- `updateNearbyFeatures(userLat, userLon)` (App.tsx lines 571-595), as a
transformation of the nearby view `geoData` given the complete view
`allData`: an empty (or missing) complete view returns unchanged; a
latitude or longitude failing `typeof === number && !isNaN` returns
unchanged; otherwise the nearby view becomes
`filterNearbyFeatures(allData, userLat, userLon, 10)`. -/
noncomputable def updateNearbyFeatures (allData geoData : List Dataset)
    (uLat uLon : JVal) : List Dataset :=
  if allData.isEmpty then geoData
  else if isNumberNotNaN uLat && isNumberNotNaN uLon then
    filterNearbyFeatures allData uLat uLon 10
  else geoData

/-! ## Normalization (`loadGeoJSONData`, App.tsx lines 504-533) -/

/-- The `geom` column of a Supabase project row as the normalizer sees it:
absent/falsy, a string payload that fails `JSON.parse`, a string payload
that parses to the value modelled by `g` (possibly not a geometry object,
hence the `Option`), or an already-structured geometry object. -/
inductive GeomField where
  | absent
  | textBad
  | textGood (g : Option Geometry)
  | objGeom (g : Geometry)

/-- A project row: its `geom` column and the properties the mapping step
copies into the feature. -/
structure ProjectRow where
  geom : GeomField
  props : Props

/-- One row through the normalization pipeline (App.tsx lines 505-533):
`.filter(project => project.geom)` drops falsy `geom`; a string payload is
`JSON.parse`d, yielding `null` (dropped by the trailing
`.filter(feature => feature !== null)`) on failure; otherwise a feature is
built with the (parsed or structured) geometry as-is — no coordinate-level
validation of any kind is performed. -/
def normalizeRow (p : ProjectRow) : Option Feature :=
  match p.geom with
  | .absent => none
  | .textBad => none
  | .textGood g => some ⟨g, p.props⟩
  | .objGeom g => some ⟨some g, p.props⟩

/-- The feature list produced by `loadGeoJSONData` from a list of project
rows (the filter/map/filter chain of App.tsx lines 505-533). -/
def loadGeoJSONFeatures (rows : List ProjectRow) : List Feature :=
  rows.filterMap normalizeRow

/-! ## Render primitive mapper (`GeoJSONLayer.tsx`) -/

/-- The per-vertex validity filter
`coord && Array.isArray(coord) && coord.length >= 2` used at
GeoJSONLayer.tsx lines 53, 85 and 140. -/
def isValidCoordPair : JVal → Bool
  | .arr l => decide (2 ≤ l.length)
  | _ => false

/-- `{ latitude: coord[1], longitude: coord[0] }` for a vertex that passed
`isValidCoordPair`. -/
def toLatLng : JVal → JVal × JVal
  | .arr l => (l.getD 1 .scalar, l.getD 0 .scalar)
  | _ => (.scalar, .scalar)

/-- `coords.filter(valid).map(toLatLng)` — the vertex list of a polyline. -/
def lineVertices (l : List JVal) : List (JVal × JVal) :=
  (l.filter isValidCoordPair).map toLatLng

/-- A drawable primitive handed to the external map renderer: a
`Polyline` (with optional `fillColor` — present only for polygons) or a
`Marker`. -/
inductive RenderPrim where
  | polyline (coords : List (JVal × JVal)) (strokeColor : String)
      (strokeWidth : ℝ) (fillColor : Option String)
  | marker (latLng : JVal × JVal) (title descr : String)

/-- Marker title: `properties.BR_NAME || properties.name || Infrastructure`. -/
def markerTitle (p : Props) : String :=
  p.br_name.getD (p.pname.getD "Infrastructure")

/-- Marker description:
`properties.ROAD_NAME || properties.description || DPWH Infrastructure`. -/
def markerDescr (p : Props) : String :=
  p.road_name.getD (p.description.getD "DPWH Infrastructure")

/-- Whether a JavaScript value is an array (`Array.isArray`). -/
def isArr : JVal → Bool
  | .arr _ => true
  | _ => false

/-- The polyline emitted for one constituent line of a `MultiLineString`
(GeoJSONLayer.tsx lines 83-104): `none` when the filtered vertex list is
empty (the line is skipped individually). -/
def mlsLinePrim (sc : String) (sw : ℝ) : JVal → Option RenderPrim
  | .arr lc =>
      if (lineVertices lc).isEmpty then none
      else some (.polyline (lineVertices lc) sc sw none)
  | _ => none

/-- The primitives emitted for one feature by `GeoJSONLayer`
(GeoJSONLayer.tsx lines 39-164), given the layer's `strokeColor` and
`strokeWidth`.  `none` models a thrown exception: for a `MultiLineString`
the code calls `.filter` on each constituent line without an
`Array.isArray` guard, so a non-array line throws a `TypeError`; every
other invalid shape is skipped by returning no primitive. -/
def renderFeature (sc : String) (sw : ℝ) (f : Feature) : Option (List RenderPrim) :=
  match f.geometry with
  | none => some []
  | some g =>
      match g.gtype with
      | .lineString =>
          match g.coords with
          | .arr l =>
              some (if (lineVertices l).isEmpty then []
                else [.polyline (lineVertices l) sc sw none])
          | _ => some []
      | .multiLineString =>
          match g.coords with
          | .arr lines =>
              if lines.all isArr then some (lines.filterMap (mlsLinePrim sc sw))
              else none
          | _ => some []
      | .point =>
          match g.coords with
          | .arr l =>
              if l.length < 2 then some []
              else some [.marker (l.getD 1 .scalar, l.getD 0 .scalar)
                (markerTitle f.props) (markerDescr f.props)]
          | _ => some []
      | .polygon =>
          match g.coords with
          | .arr (first :: _) =>
              match first with
              | .arr ring =>
                  some (if (lineVertices ring).isEmpty then []
                    else [.polyline (lineVertices ring) sc sw (some (sc ++ "20"))])
              | _ => some []
          | _ => some []
      | .other => some []

/-! ## Layer styling (`MapScreen`, App.tsx lines 821-836) -/

/-- The fixed color palette of the `GeoJSONLayer` instantiation. -/
def strokePalette : List String :=
  ["#FF6B6B", "#4ECDC4", "#9B59B6", "#E67E22", "#2ECC71", "#F1C40F"]

/-- The `strokeColor` conditional chain of App.tsx lines 825-832. -/
def strokeColorFor (i : ℕ) : String :=
  if i = 0 then "#FF6B6B"
  else if i = 1 then "#4ECDC4"
  else if i = 2 then "#9B59B6"
  else if i = 3 then "#E67E22"
  else if i = 4 then "#2ECC71"
  else "#F1C40F"

/-- `strokeWidth={index === 5 ? 3 : 2}` (App.tsx line 833). -/
def strokeWidthFor (i : ℕ) : ℝ :=
  if i = 5 then 3 else 2

/-- The concatenated primitives of a feature list (`data.features.map(...)`
inside `GeoJSONLayer`): `none` as soon as rendering one feature throws. -/
def renderFeatures (sc : String) (sw : ℝ) : List Feature → Option (List RenderPrim)
  | [] => some []
  | f :: fs =>
      match renderFeature sc sw f, renderFeatures sc sw fs with
      | some ps, some rest => some (ps ++ rest)
      | _, _ => none

/-- All primitives emitted for the dataset at collection index `i`
(`MapScreen` passing `strokeColorFor i` / `strokeWidthFor i` to
`GeoJSONLayer`, which maps `renderFeature` over `data.features`); `none`
when rendering any feature throws. -/
def renderLayer (i : ℕ) (d : Dataset) : Option (List RenderPrim) :=
  match d.features with
  | none => some []
  | some fs => renderFeatures (strokeColorFor i) (strokeWidthFor i) fs

/-! ## Basic facts about the distance calculator -/

theorem havA_self (lat lon : ℝ) : havA lat lon lat lon = 0 := by
  simp [havA]

theorem calculateDistance_self (lat lon : ℝ) : calculateDistance lat lon lat lon = 0 := by
  unfold calculateDistance
  rw [havA_self]
  norm_num [atan2, Real.sqrt_zero, Real.sqrt_one, Real.arctan_zero]

theorem havA_comm (lat1 lon1 lat2 lon2 : ℝ) :
    havA lat1 lon1 lat2 lon2 = havA lat2 lon2 lat1 lon1 := by
  unfold havA
  rw [show (lat1 - lat2) * Real.pi / 180 / 2 = -((lat2 - lat1) * Real.pi / 180 / 2) by ring,
    show (lon1 - lon2) * Real.pi / 180 / 2 = -((lon2 - lon1) * Real.pi / 180 / 2) by ring,
    Real.sin_neg, Real.sin_neg]
  ring

theorem calculateDistance_comm (lat1 lon1 lat2 lon2 : ℝ) :
    calculateDistance lat1 lon1 lat2 lon2 = calculateDistance lat2 lon2 lat1 lon1 := by
  unfold calculateDistance
  rw [havA_comm]

/-- C4: for all coordinate pairs, `calculateDistance` is symmetric in its
two endpoints, and the distance from any coordinate to itself is `0`. -/
theorem C4_calculateDistance_symm_and_self :
    (∀ lat1 lon1 lat2 lon2 : ℝ,
      calculateDistance lat1 lon1 lat2 lon2 = calculateDistance lat2 lon2 lat1 lon1) ∧
    (∀ lat lon : ℝ, calculateDistance lat lon lat lon = 0) :=
  ⟨calculateDistance_comm, calculateDistance_self⟩

/-! ## The retained-iff-within-radius characterization -/

theorem keepFeature_true_iff (a b la lo r : ℝ) (f : Feature) (g : Geometry)
    (hg : f.geometry = some g) (hrep : repLatLon g = some (.num la, .num lo)) :
    keepFeature (.num a) (.num b) r f = true ↔ calculateDistance a b la lo ≤ r := by
  by_cases h : calculateDistance a b la lo ≤ r <;>
    simp [keepFeature, hg, hrep, isNumberNotNaN, jsDistLe, h]

/-- Concrete fixture: a Point feature at latitude 0, longitude 0. -/
def pointFeature00 : Feature := ⟨some ⟨.point, .arr [.num 0, .num 0]⟩, noProps⟩

/-- Concrete fixture: a FeatureCollection dataset holding `pointFeature00`. -/
def dsPoint : Dataset := ⟨"FeatureCollection", [], some [pointFeature00]⟩

/-- C1: for every feature collection, reference coordinate and radius, the
proximity filter retains a feature (whose representative point — the
Point's own coordinate, a LineString's first coordinate, or a
MultiLineString's first line's first coordinate — is a pair of numbers)
iff `calculateDistance(reference, representative) <= radiusKm`, the
boundary being inclusive. -/
theorem C1_filter_retains_iff_within (d : Dataset) (fs : List Feature) (f : Feature)
    (g : Geometry) (a b la lo r : ℝ)
    (hd : d.features = some fs) (hg : f.geometry = some g)
    (hrep : repLatLon g = some (.num la, .num lo)) :
    (keepFeature (.num a) (.num b) r f = true ↔ calculateDistance a b la lo ≤ r) ∧
    (f ∈ ((filterNearbyFeatures [d] (.num a) (.num b) r).getD 0 emptyFC).features.getD []
      ↔ f ∈ fs ∧ calculateDistance a b la lo ≤ r) := by
  have hk := keepFeature_true_iff a b la lo r f g hg hrep
  refine ⟨hk, ?_⟩
  simp [filterNearbyFeatures, hd, List.mem_filter, hk]

/-- C1 witness: a Point feature lying exactly at the reference is within
radius 10 (distance 0), and is retained. -/
theorem C1_witness :
    ((keepFeature (.num 0) (.num 0) 10 pointFeature00 = true ↔
        calculateDistance 0 0 0 0 ≤ 10) ∧
      (pointFeature00 ∈
          ((filterNearbyFeatures [dsPoint] (.num 0) (.num 0) 10).getD 0 emptyFC).features.getD []
        ↔ pointFeature00 ∈ [pointFeature00] ∧ calculateDistance 0 0 0 0 ≤ 10)) ∧
    pointFeature00 ∈
      ((filterNearbyFeatures [dsPoint] (.num 0) (.num 0) 10).getD 0 emptyFC).features.getD [] := by
  have h := C1_filter_retains_iff_within dsPoint [pointFeature00] pointFeature00
    ⟨.point, .arr [.num 0, .num 0]⟩ 0 0 0 0 10 rfl rfl rfl
  exact ⟨h, h.2.mpr ⟨by simp, by rw [calculateDistance_self]; norm_num⟩⟩

/-! ## The nearby view is a structural subset of the complete view -/

/-- The feature list of the `i`-th dataset of a view (`[]` when the index
is out of range or the `features` field is not an array). -/
def featuresAt (l : List Dataset) (i : ℕ) : List Feature :=
  match l[i]? with
  | some d => d.features.getD []
  | none => []

/-- Position-wise containment of one view in another: at every index the
feature list is a sublist (same order, drawn by identity) of the other
view's feature list. -/
def nearbyWithinComplete (nearby complete : List Dataset) : Prop :=
  ∀ i, (featuresAt nearby i).Sublist (featuresAt complete i)

theorem filterNearby_length (data : List Dataset) (uLat uLon : JVal) (r : ℝ) :
    (filterNearbyFeatures data uLat uLon r).length = data.length := by
  simp [filterNearbyFeatures]

theorem filterNearby_within (data : List Dataset) (uLat uLon : JVal) (r : ℝ) :
    nearbyWithinComplete (filterNearbyFeatures data uLat uLon r) data := by
  intro i
  unfold featuresAt
  rw [filterNearbyFeatures, List.getElem?_map]
  cases hdi : data[i]? with
  | none => simp
  | some d =>
      cases hdf : d.features with
      | none => simp [hdf, emptyFC]
      | some fs => simp [hdf, List.filter_sublist]

theorem updateNearby_within (allData geoData : List Dataset) (uLat uLon : JVal)
    (h : nearbyWithinComplete geoData allData) :
    nearbyWithinComplete (updateNearbyFeatures allData geoData uLat uLon) allData := by
  unfold updateNearbyFeatures
  split
  · exact h
  · split
    · exact filterNearby_within allData uLat uLon 10
    · exact h

/-- C2: the proximity filter returns one dataset per input dataset, and at
every index its feature list is a sublist (by identity, order preserved) of
the input's feature list; consequently any `updateNearbyFeatures` call
preserves the invariant that the nearby view is position-wise contained in
the complete view. -/
theorem C2_nearby_subset_complete :
    (∀ (data : List Dataset) (uLat uLon : JVal) (r : ℝ),
      (filterNearbyFeatures data uLat uLon r).length = data.length ∧
      nearbyWithinComplete (filterNearbyFeatures data uLat uLon r) data) ∧
    (∀ (allData geoData : List Dataset) (uLat uLon : JVal),
      nearbyWithinComplete geoData allData →
      nearbyWithinComplete (updateNearbyFeatures allData geoData uLat uLon) allData) :=
  ⟨fun data uLat uLon r =>
    ⟨filterNearby_length data uLat uLon r, filterNearby_within data uLat uLon r⟩,
   fun allData geoData uLat uLon h => updateNearby_within allData geoData uLat uLon h⟩

/-- C2 witness: starting from an empty nearby view, an update against the
concrete complete view `[dsPoint]` keeps the nearby view inside it. -/
theorem C2_witness :
    nearbyWithinComplete (updateNearbyFeatures [dsPoint] [] .nan .nan) [dsPoint] :=
  C2_nearby_subset_complete.2 [dsPoint] [] .nan .nan
    (fun i => by simp [featuresAt, List.nil_sublist])

/-! ## Polygons and the proximity filter -/

theorem repLatLon_polygon (g : Geometry) (ht : g.gtype = .polygon) :
    repLatLon g = none := by
  obtain ⟨gt, c⟩ := g
  cases ht
  cases c <;> rfl

theorem keepFeature_polygon (uLat uLon : JVal) (r : ℝ) (f : Feature) (g : Geometry)
    (hg : f.geometry = some g) (ht : g.gtype = .polygon) :
    keepFeature uLat uLon r f = false := by
  simp [keepFeature, hg, repLatLon_polygon g ht]

/-- Concrete fixture: a Polygon whose outer ring's first vertex is
latitude 0, longitude 0. -/
def polyFeature00 : Feature :=
  ⟨some ⟨.polygon, .arr [.arr [.arr [.num 0, .num 0]]]⟩, noProps⟩

/-- Concrete fixture: a FeatureCollection dataset holding `polyFeature00`. -/
def dsPoly : Dataset := ⟨"FeatureCollection", [], some [polyFeature00]⟩

/-- C3 counterexample: a Polygon whose outer ring's first vertex is exactly
at the reference (distance 0, well within radius 10) is nevertheless not
retained — `filterNearbyFeatures` has no Polygon branch, so the feature
falls into the final `else { return false; }`. -/
theorem C3_counterexample :
    calculateDistance 0 0 0 0 ≤ 10 ∧
    keepFeature (.num 0) (.num 0) 10 polyFeature00 = false ∧
    filterNearbyFeatures [dsPoly] (.num 0) (.num 0) 10 =
      [{ dsPoly with features := some [] }] := by
  have hk : keepFeature (.num 0) (.num 0) 10 polyFeature00 = false :=
    keepFeature_polygon _ _ _ _ ⟨.polygon, .arr [.arr [.arr [.num 0, .num 0]]]⟩ rfl rfl
  refine ⟨by rw [calculateDistance_self]; norm_num, hk, ?_⟩
  simp [filterNearbyFeatures, dsPoly, hk]

/-- C3 amended: the proximity filter recognizes only Point, LineString and
MultiLineString; every Polygon feature is excluded from the nearby view
regardless of its distance to the reference. -/
theorem C3_amended_polygon_always_excluded (uLat uLon : JVal) (r : ℝ)
    (f : Feature) (g : Geometry)
    (hg : f.geometry = some g) (ht : g.gtype = .polygon) :
    keepFeature uLat uLon r f = false :=
  keepFeature_polygon uLat uLon r f g hg ht

/-- C3 witness: the amended statement at a concrete Polygon feature and
reference. -/
theorem C3_witness : keepFeature (.num 3) (.num 4) 5 polyFeature00 = false :=
  C3_amended_polygon_always_excluded (.num 3) (.num 4) 5 polyFeature00
    ⟨.polygon, .arr [.arr [.arr [.num 0, .num 0]]]⟩ rfl rfl

/-! ## Rejection of invalid reference coordinates -/

/-- C5 counterexample: `+Infinity` is a non-finite latitude, yet
`updateNearbyFeatures` does not reject it — the guard only tests
`typeof === number && !isNaN` — so the nearby view is recomputed against
it (the haversine yields `NaN`, so every feature is dropped): the state
does change. -/
theorem C5_counterexample :
    updateNearbyFeatures [dsPoint] [dsPoint] .inf (.num 0) =
      [{ dsPoint with features := some [] }] ∧
    [{ dsPoint with features := some ([] : List Feature) }] ≠ [dsPoint] := by
  constructor
  · have hk : keepFeature .inf (.num 0) 10 pointFeature00 = false := by
      simp [keepFeature, pointFeature00, repLatLon, isNumberNotNaN, jsDistLe]
    simp [updateNearbyFeatures, filterNearbyFeatures, isNumberNotNaN, dsPoint, hk]
  · simp [dsPoint, pointFeature00]

/-- C5 amended: a reference latitude or longitude that is `NaN` or not a
number at all is rejected — the nearby view is returned unchanged and no
filtering occurs; (`±Infinity`, although non-finite, passes the guard). -/
theorem C5_amended_nan_or_nonnumber_rejected (allData geoData : List Dataset)
    (uLat uLon : JVal)
    (h : isNumberNotNaN uLat = false ∨ isNumberNotNaN uLon = false) :
    updateNearbyFeatures allData geoData uLat uLon = geoData := by
  unfold updateNearbyFeatures
  rcases h with h | h <;> simp [h]

/-- C5 witness: a `NaN` latitude leaves the nearby view untouched. -/
theorem C5_witness : updateNearbyFeatures [dsPoint] [dsPoint] .nan (.num 0) = [dsPoint] :=
  C5_amended_nan_or_nonnumber_rejected [dsPoint] [dsPoint] .nan (.num 0) (Or.inl rfl)

/-! ## Normalization performs no coordinate-level validation -/

/-- Concrete fixture: a Point whose latitude and longitude are both `999`,
far outside the `[-90, 90]` / `[-180, 180]` ranges. -/
def outOfRangeFeature : Feature := ⟨some ⟨.point, .arr [.num 999, .num 999]⟩, noProps⟩

/-- Concrete fixture: a project row carrying that geometry as a structured
(non-string) `geom` value. -/
def outOfRangeRow : ProjectRow := ⟨.objGeom ⟨.point, .arr [.num 999, .num 999]⟩, noProps⟩

/-- C6 counterexample: a geometry whose leaf coordinate `999` is far outside
the latitude range survives normalization unchanged — `loadGeoJSONData`
never inspects coordinate values, so the feature is not dropped. -/
theorem C6_counterexample :
    ¬ ((999 : ℝ) ≤ 90) ∧
    loadGeoJSONFeatures [outOfRangeRow] = [outOfRangeFeature] ∧
    outOfRangeFeature ∈ loadGeoJSONFeatures [outOfRangeRow] := by
  refine ⟨by norm_num, rfl, ?_⟩
  rw [show loadGeoJSONFeatures [outOfRangeRow] = [outOfRangeFeature] from rfl]
  simp

/-- C6 amended: normalization drops exactly the rows whose `geom` is absent
or whose string payload fails to decode — ingestion of the surrounding rows
continues — and performs no coordinate-level validation: a structured
geometry is passed through verbatim whatever its leaf coordinates are. -/
theorem C6_amended_normalization_drops_only_decode_failures :
    (∀ (p : ProjectRow) (pre post : List ProjectRow),
      p.geom = .absent ∨ p.geom = .textBad →
      loadGeoJSONFeatures (pre ++ p :: post) =
        loadGeoJSONFeatures pre ++ loadGeoJSONFeatures post) ∧
    (∀ (g : Geometry) (pr : Props) (pre post : List ProjectRow),
      loadGeoJSONFeatures (pre ++ (⟨.objGeom g, pr⟩ : ProjectRow) :: post) =
        loadGeoJSONFeatures pre ++ (⟨some g, pr⟩ : Feature) :: loadGeoJSONFeatures post) := by
  constructor
  · rintro p pre post (h | h) <;>
      simp [loadGeoJSONFeatures, List.filterMap_append, normalizeRow, h]
  · intro g pr pre post
    simp [loadGeoJSONFeatures, List.filterMap_append, normalizeRow]

/-- C6 witness: a decode-failure row between two good rows is dropped while
both neighbours are ingested. -/
theorem C6_witness :
    loadGeoJSONFeatures [outOfRangeRow, ⟨.textBad, noProps⟩, outOfRangeRow] =
      loadGeoJSONFeatures [outOfRangeRow] ++ loadGeoJSONFeatures [outOfRangeRow] :=
  C6_amended_normalization_drops_only_decode_failures.1 ⟨.textBad, noProps⟩
    [outOfRangeRow] [outOfRangeRow] (Or.inr rfl)

/-! ## MultiLineString rendering -/

/-- A constituent line that will produce a polyline: an array with at least
one vertex surviving the validity filter. -/
def lineHasVertex : JVal → Bool
  | .arr lc => !(lineVertices lc).isEmpty
  | _ => false

theorem length_filterMap_mlsLinePrim (sc : String) (sw : ℝ) (lines : List JVal) :
    (lines.filterMap (mlsLinePrim sc sw)).length = lines.countP lineHasVertex := by
  induction lines with
  | nil => rfl
  | cons a t ih =>
      rw [List.filterMap_cons, List.countP_cons]
      cases a with
      | arr lc =>
          by_cases h : (lineVertices lc).isEmpty <;>
            simp [mlsLinePrim, lineHasVertex, h, ih]
      | num x => simp [mlsLinePrim, lineHasVertex, ih]
      | nan => simp [mlsLinePrim, lineHasVertex, ih]
      | inf => simp [mlsLinePrim, lineHasVertex, ih]
      | negInf => simp [mlsLinePrim, lineHasVertex, ih]
      | scalar => simp [mlsLinePrim, lineHasVertex, ih]

/-- C7: for a MultiLineString whose constituent lines are all arrays, the
mapper emits exactly one polyline per line with at least one valid vertex
(lines filtered to no vertices are skipped individually, producing no
primitive and no error), and every emitted primitive is a polyline over a
non-empty vertex list. -/
theorem C7_multiline_one_polyline_per_nonempty_line (sc : String) (sw : ℝ)
    (f : Feature) (g : Geometry) (lines : List JVal)
    (hg : f.geometry = some g) (ht : g.gtype = .multiLineString)
    (hc : g.coords = .arr lines) (ha : lines.all isArr = true) :
    renderFeature sc sw f = some (lines.filterMap (mlsLinePrim sc sw)) ∧
    (lines.filterMap (mlsLinePrim sc sw)).length = lines.countP lineHasVertex ∧
    ∀ p ∈ lines.filterMap (mlsLinePrim sc sw),
      ∃ vs, vs ≠ [] ∧ p = .polyline vs sc sw none := by
  obtain ⟨gt, c⟩ := g
  cases ht
  cases hc
  refine ⟨by simp [renderFeature, hg, ha], length_filterMap_mlsLinePrim sc sw lines, ?_⟩
  intro p hp
  rw [List.mem_filterMap] at hp
  obtain ⟨a, _, hsome⟩ := hp
  cases a with
  | arr lc =>
      by_cases h : (lineVertices lc).isEmpty
      · simp [mlsLinePrim, h] at hsome
      · rw [mlsLinePrim, if_neg (by simp [h])] at hsome
        exact ⟨lineVertices lc, by simpa using h, (Option.some_injective _ hsome).symm⟩
  | num x => simp [mlsLinePrim] at hsome
  | nan => simp [mlsLinePrim] at hsome
  | inf => simp [mlsLinePrim] at hsome
  | negInf => simp [mlsLinePrim] at hsome
  | scalar => simp [mlsLinePrim] at hsome

/-- Concrete fixture: a MultiLineString with one well-formed line and one
line whose coordinates array is empty. -/
def mlsFeature : Feature :=
  ⟨some ⟨.multiLineString, .arr [.arr [.arr [.num 1, .num 2]], .arr []]⟩, noProps⟩

/-- C7 witness: the two-line fixture renders to the filtered primitive
list, whose length is the number of lines with a valid vertex — exactly 1. -/
theorem C7_witness :
    (renderFeature "#FF6B6B" 2 mlsFeature =
        some (([.arr [.arr [.num 1, .num 2]], .arr []] : List JVal).filterMap
          (mlsLinePrim "#FF6B6B" 2)) ∧
      (([.arr [.arr [.num 1, .num 2]], .arr []] : List JVal).filterMap
          (mlsLinePrim "#FF6B6B" 2)).length =
        ([.arr [.arr [.num 1, .num 2]], .arr []] : List JVal).countP lineHasVertex ∧
      ∀ p ∈ ([.arr [.arr [.num 1, .num 2]], .arr []] : List JVal).filterMap
          (mlsLinePrim "#FF6B6B" 2),
        ∃ vs, vs ≠ [] ∧ p = .polyline vs "#FF6B6B" 2 none) ∧
    ([.arr [.arr [.num 1, .num 2]], .arr []] : List JVal).countP lineHasVertex = 1 :=
  ⟨C7_multiline_one_polyline_per_nonempty_line "#FF6B6B" 2 mlsFeature
      ⟨.multiLineString, .arr [.arr [.arr [.num 1, .num 2]], .arr []]⟩
      [.arr [.arr [.num 1, .num 2]], .arr []] rfl rfl rfl rfl,
    rfl⟩

/-! ## Polygon rendering -/

/-- C8: a Polygon with a non-empty (after vertex filtering) outer ring and
any hole rings renders to exactly one outline primitive whose vertices come
only from the outer ring, with fill color `strokeColor ++ "20"` (the stroke
color at reduced opacity); the holes contribute nothing. -/
theorem C8_polygon_single_outline (sc : String) (sw : ℝ) (f : Feature)
    (g : Geometry) (ring : List JVal) (holes : List JVal)
    (hg : f.geometry = some g) (ht : g.gtype = .polygon)
    (hc : g.coords = .arr (.arr ring :: holes))
    (hne : (lineVertices ring).isEmpty = false) :
    renderFeature sc sw f =
      some [.polyline (lineVertices ring) sc sw (some (sc ++ "20"))] := by
  obtain ⟨gt, c⟩ := g
  cases ht
  cases hc
  simp [renderFeature, hg, hne]

/-- Concrete fixture: a Polygon with a one-vertex outer ring and one hole
ring. -/
def polyWithHole : Feature :=
  ⟨some ⟨.polygon,
    .arr [.arr [.arr [.num 0, .num 1]], .arr [.arr [.num 5, .num 5]]]⟩, noProps⟩

/-- C8 witness: the fixture with a hole renders to exactly one outline over
the outer ring with the derived fill color. -/
theorem C8_witness :
    renderFeature "#2ECC71" 2 polyWithHole =
      some [.polyline (lineVertices [.arr [.num 0, .num 1]]) "#2ECC71" 2
        (some ("#2ECC71" ++ "20"))] :=
  C8_polygon_single_outline "#2ECC71" 2 polyWithHole
    ⟨.polygon, .arr [.arr [.arr [.num 0, .num 1]], .arr [.arr [.num 5, .num 5]]]⟩
    [.arr [.num 0, .num 1]] [.arr [.arr [.num 5, .num 5]]] rfl rfl rfl rfl

/-! ## Stroke parameters carried by emitted primitives -/

theorem renderFeature_polyline_params (sc : String) (sw : ℝ) (f : Feature)
    (prims : List RenderPrim) (vs : List (JVal × JVal)) (c : String) (w : ℝ)
    (fl : Option String) (h : renderFeature sc sw f = some prims)
    (hp : RenderPrim.polyline vs c w fl ∈ prims) :
    c = sc ∧ w = sw ∧ (fl = none ∨ fl = some (sc ++ "20")) := by
  obtain ⟨geo, pr⟩ := f
  rcases geo with _ | ⟨gt, co⟩
  · obtain rfl := Option.some_injective _ h
    simp at hp
  · cases gt <;> cases co <;>
      try (obtain rfl := Option.some_injective _ h; simp at hp; done)
    · -- Point with array coordinates: only a marker can be emitted
      rename_i l
      have h' : (if l.length < 2 then (some [] : Option (List RenderPrim))
          else some [.marker (l.getD 1 .scalar, l.getD 0 .scalar)
            (markerTitle pr) (markerDescr pr)]) = some prims := h
      by_cases hl : l.length < 2
      · rw [if_pos hl] at h'
        obtain rfl := Option.some_injective _ h'
        simp at hp
      · rw [if_neg hl] at h'
        obtain rfl := Option.some_injective _ h'
        simp at hp
    · -- LineString with array coordinates
      rename_i l
      have h' : (some (if (lineVertices l).isEmpty then []
          else [RenderPrim.polyline (lineVertices l) sc sw none]) :
            Option (List RenderPrim)) = some prims := h
      obtain rfl := Option.some_injective _ h'
      by_cases he : (lineVertices l).isEmpty
      · rw [if_pos he] at hp
        simp at hp
      · rw [if_neg he] at hp
        simp only [List.mem_singleton, RenderPrim.polyline.injEq] at hp
        exact ⟨hp.2.1, hp.2.2.1, Or.inl hp.2.2.2⟩
    · -- MultiLineString with array coordinates
      rename_i lines
      have h' : (if lines.all isArr then some (lines.filterMap (mlsLinePrim sc sw))
          else none) = some prims := h
      by_cases hall : lines.all isArr
      · rw [if_pos hall] at h'
        obtain rfl := Option.some_injective _ h'
        rw [List.mem_filterMap] at hp
        obtain ⟨a, _, hsome⟩ := hp
        cases a with
        | arr lc =>
            by_cases he : (lineVertices lc).isEmpty
            · simp [mlsLinePrim, he] at hsome
            · simp only [mlsLinePrim] at hsome
              rw [if_neg he] at hsome
              simp only [Option.some.injEq, RenderPrim.polyline.injEq] at hsome
              exact ⟨hsome.2.1.symm, hsome.2.2.1.symm, Or.inl hsome.2.2.2.symm⟩
        | num x => simp [mlsLinePrim] at hsome
        | nan => simp [mlsLinePrim] at hsome
        | inf => simp [mlsLinePrim] at hsome
        | negInf => simp [mlsLinePrim] at hsome
        | scalar => simp [mlsLinePrim] at hsome
      · rw [if_neg hall] at h'
        exact absurd h' (by simp)
    · -- Polygon with array coordinates
      rename_i lst
      cases lst with
      | nil =>
          obtain rfl := Option.some_injective _ h
          simp at hp
      | cons first rest =>
          cases first with
          | arr ring =>
              have h' : (some (if (lineVertices ring).isEmpty then []
                  else [RenderPrim.polyline (lineVertices ring) sc sw
                    (some (sc ++ "20"))]) : Option (List RenderPrim)) = some prims := h
              obtain rfl := Option.some_injective _ h'
              by_cases he : (lineVertices ring).isEmpty
              · rw [if_pos he] at hp
                simp at hp
              · rw [if_neg he] at hp
                simp only [List.mem_singleton, RenderPrim.polyline.injEq] at hp
                exact ⟨hp.2.1, hp.2.2.1, Or.inr hp.2.2.2⟩
          | num x =>
              obtain rfl := Option.some_injective _ h
              simp at hp
          | nan =>
              obtain rfl := Option.some_injective _ h
              simp at hp
          | inf =>
              obtain rfl := Option.some_injective _ h
              simp at hp
          | negInf =>
              obtain rfl := Option.some_injective _ h
              simp at hp
          | scalar =>
              obtain rfl := Option.some_injective _ h
              simp at hp

theorem renderFeatures_polyline_params (sc : String) (sw : ℝ) (fs : List Feature)
    (prims : List RenderPrim) (vs : List (JVal × JVal)) (c : String) (w : ℝ)
    (fl : Option String) (h : renderFeatures sc sw fs = some prims)
    (hp : RenderPrim.polyline vs c w fl ∈ prims) :
    c = sc ∧ w = sw ∧ (fl = none ∨ fl = some (sc ++ "20")) := by
  induction fs generalizing prims with
  | nil =>
      obtain rfl := Option.some_injective _ h
      simp at hp
  | cons f t ih =>
      rw [renderFeatures] at h
      cases hf : renderFeature sc sw f with
      | none => rw [hf] at h; exact absurd h (by simp)
      | some ps =>
          cases hr : renderFeatures sc sw t with
          | none => rw [hf, hr] at h; exact absurd h (by simp)
          | some rest =>
              rw [hf, hr] at h
              obtain rfl := Option.some_injective _ h
              rcases List.mem_append.mp hp with hmem | hmem
              · exact renderFeature_polyline_params sc sw f ps vs c w fl hf hmem
              · exact ih rest hr hmem

theorem renderLayer_polyline_params (i : ℕ) (d : Dataset) (prims : List RenderPrim)
    (vs : List (JVal × JVal)) (c : String) (w : ℝ) (fl : Option String)
    (h : renderLayer i d = some prims) (hp : RenderPrim.polyline vs c w fl ∈ prims) :
    c = strokeColorFor i ∧ w = strokeWidthFor i ∧
      (fl = none ∨ fl = some (strokeColorFor i ++ "20")) := by
  rw [renderLayer] at h
  cases hdf : d.features with
  | none =>
      rw [hdf] at h
      obtain rfl := Option.some_injective _ h
      simp at hp
  | some fs =>
      rw [hdf] at h
      exact renderFeatures_polyline_params (strokeColorFor i) (strokeWidthFor i)
        fs prims vs c w fl h hp

/-- C9 counterexample: the palette has 6 entries; at collection index 6 the
color is not the cyclic palette entry (`strokeColorFor (6 % 6)`), it is the
saturating fallback; and with 7 collections the last one (index 6) gets
width 2 — the same as index 0 and narrower than index 5 — so the stroke
width is not wider for the last collection. -/
theorem C9_counterexample :
    strokePalette.length = 6 ∧
    strokeColorFor 6 ≠ strokeColorFor (6 % strokePalette.length) ∧
    strokeWidthFor 6 = strokeWidthFor 0 ∧
    strokeWidthFor 6 < strokeWidthFor 5 := by
  refine ⟨rfl, by decide, rfl, ?_⟩
  simp only [strokeWidthFor]
  norm_num

/-- C9 amended: the stroke color is a deterministic function of the
collection index taken from the fixed palette, saturating at the final
entry for every index ≥ 5 (not cycling); the stroke width is 3 exactly at
index 5 (the kilometer-post layer in the conventional 6-collection
ordering) and 2 otherwise; and every polyline primitive emitted for a
collection carries exactly these parameters (with the polygon fill derived
from the stroke color). -/
theorem C9_amended_saturating_palette :
    (∀ i : ℕ, strokeColorFor i = strokePalette.getD (min i 5) "#F1C40F") ∧
    (∀ i : ℕ, strokeWidthFor i = 3 ↔ i = 5) ∧
    (∀ (i : ℕ) (d : Dataset) (prims : List RenderPrim) (vs : List (JVal × JVal))
        (c : String) (w : ℝ) (fl : Option String),
      renderLayer i d = some prims → RenderPrim.polyline vs c w fl ∈ prims →
      c = strokeColorFor i ∧ w = strokeWidthFor i ∧
        (fl = none ∨ fl = some (strokeColorFor i ++ "20"))) := by
  refine ⟨?_, ?_, ?_⟩
  · intro i
    by_cases h0 : i = 0
    · subst h0; rfl
    · by_cases h1 : i = 1
      · subst h1; rfl
      · by_cases h2 : i = 2
        · subst h2; rfl
        · by_cases h3 : i = 3
          · subst h3; rfl
          · by_cases h4 : i = 4
            · subst h4; rfl
            · have h5 : min i 5 = 5 := by omega
              rw [strokeColorFor, if_neg h0, if_neg h1, if_neg h2, if_neg h3,
                if_neg h4, h5]
              rfl
  · intro i
    rw [strokeWidthFor]
    split
    · rename_i h; simp [h]
    · rename_i h
      simp only [h, iff_false]
      norm_num
  · exact fun i d prims vs c w fl h hp =>
      renderLayer_polyline_params i d prims vs c w fl h hp

/-- Concrete fixture: a dataset holding the polygon-with-hole feature. -/
def dsPolyHole : Dataset := ⟨"FeatureCollection", [], some [polyWithHole]⟩

/-- C9 witness: the single polyline emitted for `dsPolyHole` at collection
index 0 carries stroke color `strokeColorFor 0`, width `strokeWidthFor 0`
and the derived fill. -/
theorem C9_witness :
    "#FF6B6B" = strokeColorFor 0 ∧ (2 : ℝ) = strokeWidthFor 0 ∧
      ((some ("#FF6B6B" ++ "20") : Option String) = none ∨
        (some ("#FF6B6B" ++ "20") : Option String) = some (strokeColorFor 0 ++ "20")) :=
  C9_amended_saturating_palette.2.2 0 dsPolyHole
    [.polyline (lineVertices [.arr [.num 0, .num 1]]) "#FF6B6B" 2 (some ("#FF6B6B" ++ "20"))]
    (lineVertices [.arr [.num 0, .num 1]]) "#FF6B6B" 2 (some ("#FF6B6B" ++ "20"))
    rfl (by simp)

/-! ## Frame effects of the proximity filter -/

/-- Concrete fixture: a dataset whose `features` field is not an array but
which carries another field. -/
def weirdDataset : Dataset := ⟨"FeatureCollection", [("name", "bridges")], none⟩

/-- C10 counterexample: a dataset whose `features` is not an array is
replaced wholesale by `{ type: FeatureCollection, features: [] }`, so its
other fields are not preserved. -/
theorem C10_counterexample :
    filterNearbyFeatures [weirdDataset] (.num 0) (.num 0) 10 = [emptyFC] ∧
    emptyFC.extra ≠ weirdDataset.extra := by
  constructor
  · rfl
  · simp [emptyFC, weirdDataset]

/-- C10 amended: for every dataset whose `features` field is an array, the
filter returns a dataset with the same `type` and the same other fields,
only `features` being replaced by its filtered sublist (the function is
modelled purely, so inputs are never mutated); a dataset whose `features`
is missing or not an array is instead replaced by a fresh empty
FeatureCollection. -/
theorem C10_amended_fields_preserved (data : List Dataset) (uLat uLon : JVal)
    (r : ℝ) (i : ℕ) (d : Dataset) (fs : List Feature)
    (hd : data[i]? = some d) (hf : d.features = some fs) :
    (filterNearbyFeatures data uLat uLon r)[i]? =
      some { d with features := some (fs.filter (keepFeature uLat uLon r)) } ∧
    ((filterNearbyFeatures data uLat uLon r)[i]?.map Dataset.dtype = some d.dtype ∧
      (filterNearbyFeatures data uLat uLon r)[i]?.map Dataset.extra = some d.extra) := by
  have h1 : (filterNearbyFeatures data uLat uLon r)[i]? =
      some { d with features := some (fs.filter (keepFeature uLat uLon r)) } := by
    rw [filterNearbyFeatures, List.getElem?_map, hd]
    simp [hf]
  exact ⟨h1, by rw [h1]; rfl, by rw [h1]; rfl⟩

/-- C10 witness: the amended statement at the concrete singleton dataset
list `[dsPoint]`. -/
theorem C10_witness :
    (filterNearbyFeatures [dsPoint] (.num 0) (.num 0) 10)[0]? =
      some { dsPoint with
        features := some ([pointFeature00].filter (keepFeature (.num 0) (.num 0) 10)) } ∧
    ((filterNearbyFeatures [dsPoint] (.num 0) (.num 0) 10)[0]?.map Dataset.dtype =
        some dsPoint.dtype ∧
      (filterNearbyFeatures [dsPoint] (.num 0) (.num 0) 10)[0]?.map Dataset.extra =
        some dsPoint.extra) :=
  C10_amended_fields_preserved [dsPoint] (.num 0) (.num 0) 10 0 dsPoint
    [pointFeature00] rfl rfl

end PWR
